import Mathlib

/-!
Verification development for the revaultd chain-poller and JSON-RPC core.

The definitions below are a shallow embedding of the Rust sources
`src/daemon/bitcoind/actions.rs` and `src/daemon/jsonrpc/api.rs`.
Transaction ids, block hashes, script pubkeys and public keys are modelled
as `Nat`; PSBTs are modelled by their unsigned-tx wtxid together with the
partial-signature map of their single input; node and database accesses
are modelled as oracle records passed to the functions.  Machine integers
(`u64`, `u32`) are modelled as `Nat`, with explicit bounds exactly where
the source uses checked arithmetic.
-/

namespace Revaultd

/-- Chain tip as stored in db and returned by `bitcoind.get_tip()`. -/
structure BlockchainTip where
  height : Nat
  hash : Nat
deriving DecidableEq, Repr

/-- The vault status lattice (`revaultd::VaultStatus`). -/
inductive VaultStatus where
  | unconfirmed
  | funded
  | securing
  | secured
  | activating
  | active
  | unvaulting
  | unvaulted
  | spending
  | spent
  | canceling
  | canceled
  | emergencyVaulting
  | emergencyVaulted
  | unvaultEmergencyVaulting
  | unvaultEmergencyVaulted
deriving DecidableEq, Repr

/-- Side effects performed by `new_tip_event` (actions.rs, `new_tip_event`),
in source order: persist the tip, try broadcasting mature Spends, confirm
Spends, confirm Cancels. -/
inductive TipAction where
  | dbUpdateTip (tip : BlockchainTip)
  | maybeBroadcastSpendTransactions
  | markConfirmedSpends
  | markConfirmedCancels
deriving DecidableEq, Repr

/-- The ordered action list of `new_tip_event` (actions.rs lines 482-503):
the very first effect is `db_update_tip`. -/
def new_tip_event_actions (tip : BlockchainTip) : List TipAction :=
  [TipAction.dbUpdateTip tip, TipAction.maybeBroadcastSpendTransactions,
   TipAction.markConfirmedSpends, TipAction.markConfirmedCancels]

/-- Outcome of one `update_tip` poll. `rescan` corresponds to running
`comprehensive_rescan` inside the single `db_exec` store transaction
(actions.rs lines 895-902). -/
inductive TipDecision where
  | unchanged
  | forward (actions : List TipAction)
  | rescan
deriving DecidableEq, Repr

/-- Embedding of `update_tip` (actions.rs lines 866-906). `current_tip` is
the stored tip (`db_tip`), `tip` the node tip (`bitcoind.get_tip()`), and
`getblockhash` the node's block-hash-at-height query.  The source returns
early on equality, enters `new_tip_event` when the node tip is strictly
higher and the node's hash at the stored height matches the stored hash
(or the stored height is 0), and otherwise falls through to the rescan. -/
def update_tip (current_tip tip : BlockchainTip) (getblockhash : Nat → Nat) :
    TipDecision :=
  if tip = current_tip then TipDecision.unchanged
  else if current_tip.height < tip.height ∧
      (getblockhash current_tip.height = current_tip.hash ∨ current_tip.height = 0) then
    TipDecision.forward (new_tip_event_actions tip)
  else TipDecision.rescan

/-- Concrete block-hash oracle used by witnesses: height `h` has hash `h * 1000 + 1`. -/
def gbWitness : Nat → Nat := fun h => h * 1000 + 1

/-- The columns of a `DbVault` row that `comprehensive_rescan` reads:
`id`, the deposit outpoint's txid, the status, and the (nullable)
spend txid (schema.rs `DbVault`, reduced to the fields used). -/
structure DbVault where
  id : Nat
  depositTxid : Nat
  status : VaultStatus
  spendTxid : Option Nat
deriving DecidableEq, Repr

/-- Oracle bundling the node/database reads issued by `comprehensive_rescan`:
`walletHeight t` is the block height field of `bitcoind.get_wallet_transaction(t)`
(`none` = the tx has no confirmation height), `unvaultTxid v` the txid of the
vault's Unvault from `db_unvault_dbtx` (`none` = no Unvault row), `cancelTxid v`
the Cancel txid computed by `cancel_txid` (from db or rebuilt). -/
structure RescanOracle where
  walletHeight : Nat → Option Nat
  unvaultTxid : Nat → Option Nat
  cancelTxid : Nat → Nat

/-- Database/cache rewind operations invoked by the rescan, by vault id. -/
inductive RescanAction where
  | unconfirmVault (vaultId : Nat)
  | unconfirmUnvault (vaultId : Nat)
  | unconfirmSpend (vaultId : Nat)
  | unconfirmCancel (vaultId : Nat)
  | writeTip (tip : BlockchainTip)
deriving DecidableEq, Repr

/-- Outcome of processing a single vault inside the rescan loop. -/
inductive StepOutcome where
  | restart
  | acts (l : List RescanAction)
deriving DecidableEq, Repr

/-- The statuses matched by the second-layer check of `comprehensive_rescan`
(actions.rs lines 759-768). -/
def pastUnvaultStatuses : List VaultStatus :=
  [VaultStatus.unvaulted, VaultStatus.spending, VaultStatus.spent,
   VaultStatus.canceling, VaultStatus.canceled,
   VaultStatus.unvaultEmergencyVaulting, VaultStatus.unvaultEmergencyVaulted]

/-- One iteration of the `while let Some(vault) = vaults.pop()` loop of
`comprehensive_rescan` (actions.rs lines 694-855), for the given `min_conf`
and stabilised tip height.  `none` models the `expect` panic on a Spent
vault without a stored spend txid; `StepOutcome.restart` models the
recursive `return comprehensive_rescan(..)` call. -/
def rescanVaultStep (min_conf tipHeight : Nat) (o : RescanOracle) (v : DbVault) :
    Option StepOutcome :=
  if v.status = VaultStatus.unconfirmed then some (StepOutcome.acts [])
  else
    match o.walletHeight v.depositTxid with
    | none => some (StepOutcome.acts [RescanAction.unconfirmVault v.id])
    | some dep_height =>
      if tipHeight < dep_height then some StepOutcome.restart
      else if tipHeight - dep_height + 1 < min_conf then
        some (StepOutcome.acts [RescanAction.unconfirmVault v.id])
      else if v.status ∈ pastUnvaultStatuses then
        match o.unvaultTxid v.id with
        | none => some (StepOutcome.acts [])
        | some unvault_txid =>
          match o.walletHeight unvault_txid with
          | none => some (StepOutcome.acts [RescanAction.unconfirmUnvault v.id])
          | some _ =>
            if v.status = VaultStatus.spent then
              match v.spendTxid with
              | none => none
              | some spend_txid =>
                match o.walletHeight spend_txid with
                | some _ => some (StepOutcome.acts [])
                | none => some (StepOutcome.acts [RescanAction.unconfirmSpend v.id])
            else if v.status = VaultStatus.canceled then
              match o.walletHeight (o.cancelTxid v.id) with
              | some _ => some (StepOutcome.acts [])
              | none => some (StepOutcome.acts [RescanAction.unconfirmCancel v.id])
            else some (StepOutcome.acts [])
      else some (StepOutcome.acts [])

/-- Overall result of one rescan pass. -/
inductive RescanOutcome where
  | restart
  | done (l : List RescanAction)
deriving DecidableEq, Repr

/-- The vault loop of `comprehensive_rescan` over the remaining vault list,
accumulating the rewind actions; on normal completion `db_update_tip_dbtx`
is the final action (actions.rs line 857). -/
def rescanVaults (min_conf : Nat) (tip : BlockchainTip) (o : RescanOracle) :
    List DbVault → List RescanAction → Option RescanOutcome
  | [], acc => some (RescanOutcome.done (acc ++ [RescanAction.writeTip tip]))
  | v :: rest, acc =>
    match rescanVaultStep min_conf tip.height o v with
    | none => none
    | some StepOutcome.restart => some RescanOutcome.restart
    | some (StepOutcome.acts l) => rescanVaults min_conf tip o rest (acc ++ l)

/-- One pass of `comprehensive_rescan` after the tip has stabilised.  The
source pops vaults from the back of the `db_vaults_dbtx` snapshot, hence the
`reverse`. -/
def comprehensive_rescan_pass (min_conf : Nat) (tip : BlockchainTip)
    (o : RescanOracle) (vaults : List DbVault) : Option RescanOutcome :=
  rescanVaults min_conf tip o vaults.reverse []

/-- Concrete oracle for the C2 counterexample and witnesses: deposit txid 11
is confirmed at height 10, the Unvault txid is 21 and has no height, the
Cancel txid is 31. -/
def c2Oracle : RescanOracle where
  walletHeight := fun t => if t = 11 then some 10 else none
  unvaultTxid := fun _ => some 21
  cancelTxid := fun _ => 31

/-- Concrete oracle where the Unvault (txid 21) is still confirmed but the
Spend (txid 41) and Cancel (txid 31) are not. -/
def c2OracleUnvaultConf : RescanOracle where
  walletHeight := fun t => if t = 11 then some 10 else if t = 21 then some 12 else none
  unvaultTxid := fun _ => some 21
  cancelTxid := fun _ => 31

/-- A vault in status Spent whose deposit is txid 11 and spend txid 41. -/
def c2SpentVault : DbVault := ⟨1, 11, VaultStatus.spent, some 41⟩

/-- A vault in status Canceled with deposit txid 11. -/
def c2CanceledVault : DbVault := ⟨2, 11, VaultStatus.canceled, none⟩

/-- Oracle bundling the node reads issued by `unvault_spender`:
`walletTx t = none` models `get_wallet_transaction(t)` returning `Err`
(the wallet does not know `t`), `walletTx t = some bh` a known wallet tx
with optional confirmation height `bh`; `inMempool` is `is_in_mempool`;
`spenderTxid` the result of
`get_spender_txid(unvault_outpoint, previous_tip.hash)`. -/
structure SpenderOracle where
  walletTx : Nat → Option (Option Nat)
  inMempool : Nat → Bool
  spenderTxid : Option Nat

/-- Which kind of transaction spent the Unvault (actions.rs `UnvaultSpender`). -/
inductive UnvaultSpender where
  | cancel (txid : Nat)
  | spend (txid : Nat)
deriving DecidableEq, Repr

/-- Embedding of `unvault_spender` (actions.rs lines 1095-1136), given the
expected Cancel txid already computed by `cancel_txid`.  `Except.error`
models the `?` propagation when `get_wallet_transaction` fails on the
candidate spender txid. -/
def unvault_spender (o : SpenderOracle) (cancel_txid : Nat) :
    Except Unit (Option UnvaultSpender) :=
  match o.walletTx cancel_txid with
  | some blockheight =>
    if blockheight.isSome || o.inMempool cancel_txid then
      Except.ok (some (UnvaultSpender.cancel cancel_txid))
    else
      Except.ok none
  | none =>
    match o.spenderTxid with
    | some spend_txid =>
      match o.walletTx spend_txid with
      | none => Except.error ()
      | some blockheight =>
        if blockheight.isSome || o.inMempool spend_txid then
          Except.ok (some (UnvaultSpender.spend spend_txid))
        else
          Except.ok none
    | none => Except.ok none

/-- The spender classifier as claim C3 words it (for comparison with the
source-derived `unvault_spender`): Cancel when the wallet knows the Cancel
txid and it is confirmed or in mempool; in every other case ask
`get_spender_txid` and answer Spend when the returned txid is known to the
wallet or in the mempool; otherwise unknown. -/
def unvault_spender_claimed (o : SpenderOracle) (cancel_txid : Nat) :
    Option UnvaultSpender :=
  if (o.walletTx cancel_txid).isSome &&
      (((o.walletTx cancel_txid).getD none).isSome || o.inMempool cancel_txid) then
    some (UnvaultSpender.cancel cancel_txid)
  else
    match o.spenderTxid with
    | some spend_txid =>
      if (o.walletTx spend_txid).isSome || o.inMempool spend_txid then
        some (UnvaultSpender.spend spend_txid)
      else none
    | none => none

/-- Concrete oracle for the C3 counterexample: the wallet knows the Cancel
txid 3 but it is unconfirmed and not in mempool, while `get_spender_txid`
returns txid 7 which the wallet knows confirmed at height 50. -/
def c3CexOracle : SpenderOracle where
  walletTx := fun t => if t = 3 then some none else if t = 7 then some (some 50) else none
  inMempool := fun _ => false
  spenderTxid := some 7

/-- Concrete oracle where the wallet does not know the Cancel txid 3 and
`get_spender_txid` returns txid 7, known confirmed at height 50. -/
def c3SpendOracle : SpenderOracle where
  walletTx := fun t => if t = 7 then some (some 50) else none
  inMempool := fun _ => false
  spenderTxid := some 7

/-- Concrete oracle where the Cancel txid 3 is known and in mempool. -/
def c3CancelOracle : SpenderOracle where
  walletTx := fun t => if t = 3 then some none else none
  inMempool := fun t => t = 3
  spenderTxid := none

/-- A transaction output: value in satoshis and script pubkey. -/
structure TxOutModel where
  value : Nat
  scriptPubkey : Nat
deriving DecidableEq, Repr

/-- A UTXO-cache entry (bitcoind/interface.rs `UtxoInfo`). -/
structure UtxoInfo where
  txo : TxOutModel
  is_confirmed : Bool
deriving DecidableEq, Repr

/-- A Bitcoin outpoint (txid, vout). -/
structure OutPointM where
  txid : Nat
  vout : Nat
deriving DecidableEq, Repr

/-- The in-memory unvaults cache, `HashMap<OutPoint, UtxoInfo>` modelled as a
partial map. -/
def UnvaultsCache := OutPointM → Option UtxoInfo

/-- `HashMap::insert`. -/
def cacheInsert (c : UnvaultsCache) (op : OutPointM) (u : UtxoInfo) : UnvaultsCache :=
  fun o => if o = op then some u else c o

/-- The unvaults-cache effect of `unconfirm_unvault` (actions.rs lines
506-594), keyed on the vault's pre-reorg status; `unvault_outpoint` and
`txo` are recomputed from the Unvault tx and the derived descriptor, and
`cancelRow` is the `db_cancel_dbtx` lookup result (the Cancel txid, or
`none` when the database holds no Cancel row).  The branches in source
order: Spent/Spending re-insert the entry unconfirmed (after
`db_mark_rebroadcastable_spend`); Unvaulted flips the existing entry's
`is_confirmed` flag in place (`get_mut` + `expect`, modelled as `none`
when the entry is absent); Canceled/Canceling first fetch the Cancel via
`db_cancel_dbtx` and, when no Cancel row exists, log and return early
*without* touching the cache (lines 566-576), otherwise rebroadcast it and
re-insert the entry unconfirmed; any other status leaves the cache
untouched.  The database write `db_unconfirm_unvault_dbtx` and the
best-effort rebroadcasts are not part of the cache model. -/
def unconfirm_unvault_cache (status : VaultStatus) (cancelRow : Option Nat)
    (unvault_outpoint : OutPointM) (txo : TxOutModel) (c : UnvaultsCache) :
    Option UnvaultsCache :=
  if status = VaultStatus.spent ∨ status = VaultStatus.spending then
    some (cacheInsert c unvault_outpoint ⟨txo, false⟩)
  else if status = VaultStatus.unvaulted then
    match c unvault_outpoint with
    | none => none
    | some u => some (cacheInsert c unvault_outpoint ⟨u.txo, false⟩)
  else if status = VaultStatus.canceled ∨ status = VaultStatus.canceling then
    match cancelRow with
    | none => some c
    | some _ => some (cacheInsert c unvault_outpoint ⟨txo, false⟩)
  else some c

/-- The statuses with which `unconfirm_unvault` can be invoked during a
reorg rewind: from `unconfirm_vault` (actions.rs lines 618-644) and from
the second layer of `comprehensive_rescan` (lines 759-793). -/
def unvaultRewindStatuses : List VaultStatus :=
  [VaultStatus.unvaulting, VaultStatus.unvaulted, VaultStatus.spending,
   VaultStatus.spent, VaultStatus.canceling, VaultStatus.canceled,
   VaultStatus.unvaultEmergencyVaulting, VaultStatus.unvaultEmergencyVaulted]

/-- The empty unvaults cache. -/
def emptyUnvaultsCache : UnvaultsCache := fun _ => none

/-- Concrete unvault outpoint used in C4 statements. -/
def op0 : OutPointM := ⟨21, 0⟩

/-- Concrete recomputed unvault txo used in C4 statements. -/
def txo0 : TxOutModel := ⟨480000, 5⟩

/-- A concrete cache holding a confirmed entry for `op0` with a txo that
differs from `txo0`. -/
def c4Cache : UnvaultsCache :=
  fun o => if o = op0 then some ⟨⟨480000, 9⟩, true⟩ else none

/-- A vault in status UnvaultEmergencyVaulting with deposit txid 11. -/
def c4UevVault : DbVault := ⟨4, 11, VaultStatus.unvaultEmergencyVaulting, none⟩

/-- The caller's role (jsonrpc `UserRole`). -/
inductive Role where
  | stakeholder
  | manager
deriving DecidableEq, Repr

/-- Error classes of the api.rs handlers.  Every constructor below is
surfaced as a JSON-RPC `-32602 invalid params` error in the source (even
`shareFailed`, see api.rs lines 602-604). -/
inductive RpcErr where
  | notStakeholder
  | notManager
  | unknownOutpoint
  | invalidStatus
  | badWtxid
  | missingOurSig
  | invalidSig
  | shareFailed
  | badFeerate
  | feerateTooLow
deriving DecidableEq, Repr

/-- A stored or submitted presigned transaction, reduced to its unsigned-tx
wtxid and the partial-signature map (pubkey, signature) of its single
input. -/
structure PresignedTx where
  wtxid : Nat
  sigs : List (Nat × Nat)
deriving DecidableEq, Repr

/-- The store state touched by `revocationtxs`/`unvaulttx` for one vault:
its status and its four presigned transactions. -/
structure VaultRow where
  status : VaultStatus
  cancelDb : PresignedTx
  emerDb : PresignedTx
  unvaultEmerDb : PresignedTx
  unvaultDb : PresignedTx
deriving DecidableEq, Repr

/-- Modelled from the spec: `db_update_presigned_tx` (database/actions.rs,
not under src/) merges the given partial signatures into the stored PSBT
(spec section 4.A: merge partial signatures keyed by signer pubkey).
Signatures for pubkeys already present are kept as stored. -/
def mergeSigs (stored incoming : List (Nat × Nat)) : List (Nat × Nat) :=
  incoming.foldl
    (fun acc kv => if acc.any (fun kv2 => kv2.1 = kv.1) then acc else acc ++ [kv])
    stored

/-- Membership of a pubkey in a partial-signature map
(`partial_sigs.contains_key`). -/
def hasKey (sigs : List (Nat × Nat)) (k : Nat) : Bool :=
  sigs.any (fun kv => kv.1 = k)

/-- Oracle bundling the cryptographic and network collaborators of the
handlers: our derived stakeholder pubkey, `check_revocation_signatures` and
`check_unvault_signatures` (keyed by the checked PSBT's wtxid), the
quorum predicate of the descriptors, and whether sharing with the
coordinator succeeds. -/
structure SigOracle where
  ourKey : Nat
  revSigsValid : Nat → List (Nat × Nat) → Bool
  unvaultSigsValid : Nat → List (Nat × Nat) → Bool
  fullySigned : List (Nat × Nat) → Bool
  shareOk : Bool

/-- The three revocation PSBTs of the row with the submitted signatures
merged in (the effect of the three `db_update_presigned_tx` calls at
api.rs lines 570-593). -/
def mergedRevState (st : VaultRow) (c e ue : PresignedTx) : VaultRow :=
  { st with
    cancelDb := { st.cancelDb with sigs := mergeSigs st.cancelDb.sigs c.sigs }
    emerDb := { st.emerDb with sigs := mergeSigs st.emerDb.sigs e.sigs }
    unvaultEmerDb := { st.unvaultEmerDb with sigs := mergeSigs st.unvaultEmerDb.sigs ue.sigs } }

/-- The Unvault PSBT of the row with the submitted signatures merged in
(api.rs lines 722-729). -/
def mergedUnvaultState (st : VaultRow) (u : PresignedTx) : VaultRow :=
  { st with unvaultDb := { st.unvaultDb with sigs := mergeSigs st.unvaultDb.sigs u.sigs } }

/-- Modelled from the spec: the threshold-triggered status promotion
performed by `db_update_presigned_tx` inside the same transaction (spec
sections 4.A and 4.G): when all three revocation PSBTs are fully signed a
Funded/Securing vault becomes Secured. -/
def promoteRevThreshold (o : SigOracle) (st : VaultRow) : VaultRow :=
  if (o.fullySigned st.cancelDb.sigs && o.fullySigned st.emerDb.sigs &&
      o.fullySigned st.unvaultEmerDb.sigs) ∧
      (st.status = VaultStatus.funded ∨ st.status = VaultStatus.securing) then
    { st with status := VaultStatus.secured }
  else st

/-- Modelled from the spec: the threshold-triggered status promotion for
the Unvault PSBT (spec section 4.G): when it is fully signed a
Secured/Activating vault becomes Active. -/
def promoteUnvaultThreshold (o : SigOracle) (st : VaultRow) : VaultRow :=
  if o.fullySigned st.unvaultDb.sigs ∧
      (st.status = VaultStatus.secured ∨ st.status = VaultStatus.activating) then
    { st with status := VaultStatus.active }
  else st

/-- Embedding of the `revocationtxs` handler (api.rs lines 442-611), with
its guards in source order: the stakeholder role gate, the vault lookup,
the Funded status gate, the three wtxid sanity checks, the
own-signature-presence checks, the signature validity checks; then the
three `db_update_presigned_tx` store commits (merging signatures and
possibly promoting the status), the sharing with the other stakeholders
(an error reply if it fails, *after* the commits), and finally
`db_mark_securing_vault`, which only moves a still-Funded vault to
Securing.  The second component is the store state after the call. -/
def revocationtxs (role : Role) (vault : Option VaultRow)
    (cancel_tx emergency_tx unvault_emergency_tx : PresignedTx) (o : SigOracle) :
    Except RpcErr Unit × Option VaultRow :=
  if role = Role.manager then (Except.error RpcErr.notStakeholder, vault)
  else
    match vault with
    | none => (Except.error RpcErr.unknownOutpoint, none)
    | some st =>
      if st.status ≠ VaultStatus.funded then (Except.error RpcErr.invalidStatus, some st)
      else if cancel_tx.wtxid ≠ st.cancelDb.wtxid then (Except.error RpcErr.badWtxid, some st)
      else if emergency_tx.wtxid ≠ st.emerDb.wtxid then (Except.error RpcErr.badWtxid, some st)
      else if unvault_emergency_tx.wtxid ≠ st.unvaultEmerDb.wtxid then
        (Except.error RpcErr.badWtxid, some st)
      else if ¬ hasKey cancel_tx.sigs o.ourKey then (Except.error RpcErr.missingOurSig, some st)
      else if ¬ hasKey emergency_tx.sigs o.ourKey then (Except.error RpcErr.missingOurSig, some st)
      else if ¬ hasKey unvault_emergency_tx.sigs o.ourKey then
        (Except.error RpcErr.missingOurSig, some st)
      else if ¬ o.revSigsValid cancel_tx.wtxid cancel_tx.sigs then
        (Except.error RpcErr.invalidSig, some st)
      else if ¬ o.revSigsValid emergency_tx.wtxid emergency_tx.sigs then
        (Except.error RpcErr.invalidSig, some st)
      else if ¬ o.revSigsValid unvault_emergency_tx.wtxid unvault_emergency_tx.sigs then
        (Except.error RpcErr.invalidSig, some st)
      else
        let updated := promoteRevThreshold o
          (mergedRevState st cancel_tx emergency_tx unvault_emergency_tx)
        if ¬ o.shareOk then (Except.error RpcErr.shareFailed, some updated)
        else if updated.status = VaultStatus.funded then
          (Except.ok (), some { updated with status := VaultStatus.securing })
        else (Except.ok (), some updated)

/-- Embedding of the `unvaulttx` handler (api.rs lines 659-742): the
stakeholder role gate, the vault lookup, the Secured status gate, the
wtxid sanity check, the own-signature and validity checks; then the
`db_update_presigned_tx` commit, the sharing with the coordinator, and
`db_mark_activating_vault`, which only moves a still-Secured vault to
Activating. -/
def unvaulttx (role : Role) (vault : Option VaultRow) (unvault_tx : PresignedTx)
    (o : SigOracle) : Except RpcErr Unit × Option VaultRow :=
  if role = Role.manager then (Except.error RpcErr.notStakeholder, vault)
  else
    match vault with
    | none => (Except.error RpcErr.unknownOutpoint, none)
    | some st =>
      if st.status ≠ VaultStatus.secured then (Except.error RpcErr.invalidStatus, some st)
      else if unvault_tx.wtxid ≠ st.unvaultDb.wtxid then (Except.error RpcErr.badWtxid, some st)
      else if ¬ hasKey unvault_tx.sigs o.ourKey then (Except.error RpcErr.missingOurSig, some st)
      else if ¬ o.unvaultSigsValid unvault_tx.wtxid unvault_tx.sigs then
        (Except.error RpcErr.invalidSig, some st)
      else
        let updated := promoteUnvaultThreshold o (mergedUnvaultState st unvault_tx)
        if ¬ o.shareOk then (Except.error RpcErr.shareFailed, some updated)
        else if updated.status = VaultStatus.secured then
          (Except.ok (), some { updated with status := VaultStatus.activating })
        else (Except.ok (), some updated)

/-- A Funded vault row whose stored wtxids are 1 (Cancel), 2 (Emergency),
3 (UnvaultEmergency) and 4 (Unvault), with no signatures yet. -/
def c5FundedRow : VaultRow :=
  ⟨VaultStatus.funded, ⟨1, []⟩, ⟨2, []⟩, ⟨3, []⟩, ⟨4, []⟩⟩

/-- The same row in status Secured. -/
def c5SecuredRow : VaultRow :=
  ⟨VaultStatus.secured, ⟨1, []⟩, ⟨2, []⟩, ⟨3, []⟩, ⟨4, []⟩⟩

/-- Oracle for C5 witnesses: our key is 100, all signatures check out, a
quorum needs two signatures, sharing succeeds. -/
def c5Oracle : SigOracle :=
  ⟨100, fun _ _ => true, fun _ _ => true, fun sigs => 2 ≤ sigs.length, true⟩

/-- Oracle for the C9 witness: identical to `c5Oracle` except that sharing
with the peers fails. -/
def c9Oracle : SigOracle :=
  ⟨100, fun _ _ => true, fun _ _ => true, fun sigs => 2 ≤ sigs.length, false⟩

/-- `revault_tx::transactions::DUST_LIMIT` (library constant; api.rs line
902 documents it as 200k sats). -/
def DUST_LIMIT : Nat := 200000

/-- `bip32::ChildNumber::increment` on a normal (unhardened) child number:
the index must stay below `2^31` (library function; failure aborts the
poll with an error). -/
def childIncrement (i : Nat) : Option Nat :=
  if i + 1 < 2 ^ 31 then some (i + 1) else none

/-- A `new_unconf` entry of the deposits `OnchainDiff`: the deposit
outpoint, its value in satoshis and its script pubkey. -/
structure NewDepositUtxo where
  outpoint : OutPointM
  value : Nat
  scriptPubkey : Nat
deriving DecidableEq, Repr

/-- Side effects of handling one new unconfirmed deposit (actions.rs lines
1237-1308), in source order: insert the Unconfirmed vault row, cache the
deposit, persist the advanced index, import the fresh deposit and unvault
descriptors. -/
inductive DepositAction where
  | insertVault (op : OutPointM) (amount : Nat) (derivationIndex : Nat)
  | cachePut (op : OutPointM)
  | dbUpdateDepositIndex (newIndex : Nat)
  | importDepositDescriptor (index : Nat)
  | importUnvaultDescriptor (index : Nat)
deriving DecidableEq, Repr

/-- Embedding of one iteration of the `for (outpoint, utxo) in new_deposits`
loop of `update_utxos` (actions.rs lines 1237-1308).  A dust utxo
(`value <= DUST_LIMIT`) is logged and skipped; an unknown script pubkey in
`derivation_index_map` aborts the poll (`none`); otherwise the vault row is
inserted and cached, and — only when the assigned index reaches the current
first-unused index — `current_unused_index` is incremented (aborting on
`ChildNumber` overflow), persisted, and fresh descriptors are imported.
Returns the updated `current_unused_index` and the actions performed. -/
def processNewDeposit (derivationIndexMap : Nat → Option Nat)
    (current_unused_index : Nat) (d : NewDepositUtxo) :
    Option (Nat × List DepositAction) :=
  if d.value ≤ DUST_LIMIT then some (current_unused_index, [])
  else
    match derivationIndexMap d.scriptPubkey with
    | none => none
    | some derivation_index =>
      let acts := [DepositAction.insertVault d.outpoint d.value derivation_index,
                   DepositAction.cachePut d.outpoint]
      if current_unused_index ≤ derivation_index then
        match childIncrement current_unused_index with
        | none => none
        | some new_index =>
          some (new_index,
            acts ++ [DepositAction.dbUpdateDepositIndex new_index,
                     DepositAction.importDepositDescriptor new_index,
                     DepositAction.importUnvaultDescriptor new_index])
      else some (current_unused_index, acts)

/-- The whole `new_deposits` loop, threading `current_unused_index`. -/
def processNewDeposits (derivationIndexMap : Nat → Option Nat) :
    Nat → List NewDepositUtxo → Option Nat
  | cur, [] => some cur
  | cur, d :: ds =>
    match processNewDeposit derivationIndexMap cur d with
    | none => none
    | some (next, _) => processNewDeposits derivationIndexMap next ds

/-- Concrete derivation-index map for witnesses: script pubkey `s` belongs
to derivation index `s - 50` for `s ≥ 50`, unknown otherwise. -/
def dimapWitness : Nat → Option Nat :=
  fun s => if 50 ≤ s then some (s - 50) else none

/-- The vault columns read by `getspendtx` / `getrevocationtxs` /
`getunvaulttx`: status, amount (sat) and derivation index. -/
structure VaultInfo where
  status : VaultStatus
  amount : Nat
  derivationIndex : Nat
deriving DecidableEq, Repr

/-- The `for outpoint in outpoints` loop of `getspendtx` (api.rs lines
834-846): the input list holds the `db_vault_by_deposit` lookup result for
each requested outpoint in order; each vault must exist and be Active; the
change index starts at 0 and is bumped to any strictly larger derivation
index; the collected txins are (amount, derivation index) pairs. -/
def collectSpendTxins : List (Option VaultInfo) → Nat → Except RpcErr (List (Nat × Nat) × Nat)
  | [], change_index => Except.ok ([], change_index)
  | none :: _, _ => Except.error RpcErr.unknownOutpoint
  | some v :: rest, change_index =>
    if v.status = VaultStatus.active then
      match collectSpendTxins rest
          (if change_index < v.derivationIndex then v.derivationIndex else change_index) with
      | Except.error e => Except.error e
      | Except.ok (txins, fin) => Except.ok ((v.amount, v.derivationIndex) :: txins, fin)
    else Except.error RpcErr.invalidStatus

/-- `const P2WSH_TXO_WEIGHT: u64 = 43 * 4` (api.rs line 904). -/
def P2WSH_TXO_WEIGHT : Nat := 43 * 4

/-- The shape of the Spend transaction handed back by `getspendtx`:
the deposit txins and the optional change output
(value, derivation index used for the change address). -/
structure SpendTxResult where
  txins : List (Nat × Nat)
  changeOutput : Option (Nat × Nat)
deriving DecidableEq, Repr

/-- The running maximum of the derivation indexes of the looked-up vaults,
with the same update rule as the source
(`if vault.derivation_index > change_index`). -/
def maxDerivationIndex (rows : List (Option VaultInfo)) (acc : Nat) : Nat :=
  rows.foldl
    (fun a r =>
      match r with
      | some v => if a < v.derivationIndex then v.derivationIndex else a
      | none => a)
    acc

/-- Embedding of `getspendtx` (api.rs lines 810-962).  The library calls
`spend_tx_from_deposits` / `max_feerate` / `max_weight` / `fees` on the
no-change transaction are represented by the `nochange_*` inputs.  In
source order: the manager role gate, the `feerate_vb < 1` rejection, the
vault collection, the `nochange_feerate_vb * 10 < feerate_vb * 9`
rejection; then the change computation with `u64` checked arithmetic
(`checked_mul` overflow yields no change; `checked_sub` underflow yields
no change), adding a change output of `change_value - cpfp_overhead` at
the collected change index when
`change_value > DUST_LIMIT + cpfp_overhead`, with
`cpfp_overhead = 16 * P2WSH_TXO_WEIGHT`. -/
def getspendtx (role : Role) (vaultsAtOutpoints : List (Option VaultInfo))
    (feerate_vb nochange_max_feerate nochange_max_weight nochange_fees : Nat) :
    Except RpcErr SpendTxResult :=
  if role = Role.stakeholder then Except.error RpcErr.notManager
  else if feerate_vb < 1 then Except.error RpcErr.badFeerate
  else
    match collectSpendTxins vaultsAtOutpoints 0 with
    | Except.error e => Except.error e
    | Except.ok (txins, change_index) =>
      let nochange_feerate_vb := nochange_max_feerate * 4
      if nochange_feerate_vb * 10 < feerate_vb * 9 then Except.error RpcErr.feerateTooLow
      else
        let with_change_weight := nochange_max_weight + P2WSH_TXO_WEIGHT
        let want_fees : Option Nat :=
          if with_change_weight * (feerate_vb + 3) < 2 ^ 64 then
            some (with_change_weight * (feerate_vb + 3) / 4)
          else none
        let change_value : Option (Option Nat) :=
          want_fees.map (fun f => if f ≤ nochange_fees then some (nochange_fees - f) else none)
        let changeOutput : Option (Nat × Nat) :=
          match change_value with
          | some (some cv) =>
            if DUST_LIMIT + 16 * P2WSH_TXO_WEIGHT < cv then
              some (cv - 16 * P2WSH_TXO_WEIGHT, change_index)
            else none
          | _ => none
        Except.ok { txins := txins, changeOutput := changeOutput }

/-- Two Active vaults at derivation indexes 3 and 7 for C8 witnesses. -/
def c8Rows : List (Option VaultInfo) :=
  [some ⟨VaultStatus.active, 500000, 3⟩, some ⟨VaultStatus.active, 600000, 7⟩]

/-- The freshly derived revocation-transaction chain returned by
`getrevocationtxs`: `transaction_chain` is a deterministic library function
of the deposit outpoint, the amount, the configured descriptors and the
vault's derivation index (api.rs lines 422-433), so its output is
represented by those inputs. -/
structure RevTxsOutput where
  outpoint : OutPointM
  amount : Nat
  derivationIndex : Nat
deriving DecidableEq, Repr

/-- The freshly derived Unvault transaction returned by `getunvaulttx`
(`UnvaultTransaction::new` on the derived descriptors, api.rs lines
631-652), represented by its determining inputs. -/
structure UnvaultTxOutput where
  outpoint : OutPointM
  amount : Nat
  derivationIndex : Nat
deriving DecidableEq, Repr

/-- Embedding of `getrevocationtxs` (api.rs lines 392-440): the stakeholder
role gate, then the vault lookup — a missing vault and an Unconfirmed vault
are both rejected with the same "known and confirmed vault" invalid-params
error — and otherwise the freshly re-derived chain is returned (the
library derivation is deterministic and assumed not to fail, as the spec
notes for invariant-respecting states). -/
def getrevocationtxs (role : Role) (outpoint : OutPointM) (vault : Option VaultInfo) :
    Except RpcErr RevTxsOutput :=
  if role = Role.manager then Except.error RpcErr.notStakeholder
  else
    match vault with
    | none => Except.error RpcErr.unknownOutpoint
    | some v =>
      if v.status = VaultStatus.unconfirmed then Except.error RpcErr.unknownOutpoint
      else Except.ok ⟨outpoint, v.amount, v.derivationIndex⟩

/-- Embedding of `getunvaulttx` (api.rs lines 613-657): the stakeholder
role gate, the vault lookup (unknown-outpoint error), the Unconfirmed
status rejection (invalid-status error), and otherwise the freshly derived
Unvault transaction. -/
def getunvaulttx (role : Role) (outpoint : OutPointM) (vault : Option VaultInfo) :
    Except RpcErr UnvaultTxOutput :=
  if role = Role.manager then Except.error RpcErr.notStakeholder
  else
    match vault with
    | none => Except.error RpcErr.unknownOutpoint
    | some v =>
      if v.status = VaultStatus.unconfirmed then Except.error RpcErr.invalidStatus
      else Except.ok ⟨outpoint, v.amount, v.derivationIndex⟩

end Revaultd

namespace Revaultd

/-- Claim C1: for every poll where the node tip differs from the stored tip,
`update_tip` runs `new_tip_event` (whose first action persists the new tip)
exactly when the node tip is strictly higher and the node's hash at the
stored height matches the stored hash (or the stored height is 0); in every
other differing case it runs `comprehensive_rescan` inside the single store
transaction, which the embedding renders as the `rescan` decision. -/
theorem update_tip_forward_or_rescan (current_tip tip : BlockchainTip)
    (gb : Nat → Nat) (hne : tip ≠ current_tip) :
    (current_tip.height < tip.height ∧
        (gb current_tip.height = current_tip.hash ∨ current_tip.height = 0) →
      update_tip current_tip tip gb = TipDecision.forward (new_tip_event_actions tip) ∧
        (new_tip_event_actions tip).head? = some (TipAction.dbUpdateTip tip)) ∧
    (¬ (current_tip.height < tip.height ∧
        (gb current_tip.height = current_tip.hash ∨ current_tip.height = 0)) →
      update_tip current_tip tip gb = TipDecision.rescan) := by
  constructor
  · intro hfwd
    constructor
    · simp [update_tip, hne, hfwd]
    · rfl
  · intro hnot
    simp [update_tip, hne, hnot]

/-- Witness for C1: a concrete forward tick and a concrete reorg tick. -/
theorem update_tip_forward_or_rescan_witness :
    update_tip ⟨5, 5001⟩ ⟨7, 7001⟩ gbWitness =
      TipDecision.forward (new_tip_event_actions ⟨7, 7001⟩) ∧
    update_tip ⟨5, 4242⟩ ⟨7, 7001⟩ gbWitness = TipDecision.rescan := by
  constructor
  · exact ((update_tip_forward_or_rescan ⟨5, 5001⟩ ⟨7, 7001⟩ gbWitness
      (by decide)).1 ⟨by decide, Or.inl (by decide)⟩).1
  · exact (update_tip_forward_or_rescan ⟨5, 4242⟩ ⟨7, 7001⟩ gbWitness
      (by decide)).2 (by simp [gbWitness])

/-- Every normally completed rescan pass ends with the tip write. -/
theorem rescanVaults_done_writeTip (mc : Nat) (tip : BlockchainTip) (o : RescanOracle) :
    ∀ (vaults : List DbVault) (acc res : List RescanAction),
      rescanVaults mc tip o vaults acc = some (RescanOutcome.done res) →
      ∃ pre, res = pre ++ [RescanAction.writeTip tip] := by
  intro vaults
  induction vaults with
  | nil =>
    intro acc res h
    simp only [rescanVaults, Option.some.injEq, RescanOutcome.done.injEq] at h
    exact ⟨acc, h.symm⟩
  | cons v rest ih =>
    intro acc res h
    simp only [rescanVaults] at h
    cases hstep : rescanVaultStep mc tip.height o v with
    | none => rw [hstep] at h; exact absurd h (by simp)
    | some so =>
      rw [hstep] at h
      cases so with
      | restart => exact absurd h (by simp)
      | acts l => exact ih (acc ++ l) res h

/-- Counterexample to claim C2 as stated: for a vault in status Spent whose
deposit is still buried deeply enough and whose Spend tx has no height, the
claim asserts that only the spend is unconfirmed (status becomes Spending);
but when the Unvault tx has also lost its height the source instead runs
`unconfirm_unvault` (actions.rs lines 781-802 take precedence over the
third-layer Spend check at lines 812-830). -/
theorem rescanVaultStep_spent_claim_counterexample :
    rescanVaultStep 1 100 c2Oracle c2SpentVault =
      some (StepOutcome.acts [RescanAction.unconfirmUnvault 1]) ∧
    some (StepOutcome.acts [RescanAction.unconfirmUnvault 1]) ≠
      some (StepOutcome.acts [RescanAction.unconfirmSpend 1]) := by
  constructor
  · rfl
  · decide

/-- Claim C2 (amended): during a rescan, for every vault whose status is not
Unconfirmed: if the wallet reports no block height for the deposit tx the
vault is unconfirmed via `unconfirm_vault`; if the deposit height exceeds
the observed tip height the whole rescan restarts; if
`tip.height - deposit_height + 1 < min_conf` the vault is unconfirmed;
otherwise, for a past-unvault vault whose Unvault tx has no height,
`unconfirm_unvault` runs; for a vault in status Spent whose Unvault tx still
has a height but whose Spend tx has none, only the spend is unconfirmed
(status becomes Spending), and symmetrically Canceled becomes Canceling; the
observed tip is written to the store at the end of the pass. -/
theorem comprehensive_rescan_steps :
    (∀ mc tH (o : RescanOracle) (v : DbVault),
        v.status ≠ VaultStatus.unconfirmed →
        o.walletHeight v.depositTxid = none →
        rescanVaultStep mc tH o v =
          some (StepOutcome.acts [RescanAction.unconfirmVault v.id])) ∧
    (∀ mc (tip : BlockchainTip) (o : RescanOracle) (v : DbVault) rest acc h,
        v.status ≠ VaultStatus.unconfirmed →
        o.walletHeight v.depositTxid = some h →
        tip.height < h →
        rescanVaultStep mc tip.height o v = some StepOutcome.restart ∧
          rescanVaults mc tip o (v :: rest) acc = some RescanOutcome.restart) ∧
    (∀ mc tH (o : RescanOracle) (v : DbVault) h,
        v.status ≠ VaultStatus.unconfirmed →
        o.walletHeight v.depositTxid = some h →
        h ≤ tH → tH - h + 1 < mc →
        rescanVaultStep mc tH o v =
          some (StepOutcome.acts [RescanAction.unconfirmVault v.id])) ∧
    (∀ mc tH (o : RescanOracle) (v : DbVault) h ut,
        v.status ∈ pastUnvaultStatuses →
        o.walletHeight v.depositTxid = some h →
        h ≤ tH → ¬ (tH - h + 1 < mc) →
        o.unvaultTxid v.id = some ut →
        o.walletHeight ut = none →
        rescanVaultStep mc tH o v =
          some (StepOutcome.acts [RescanAction.unconfirmUnvault v.id])) ∧
    (∀ mc tH (o : RescanOracle) (v : DbVault) h ut uh s,
        v.status = VaultStatus.spent →
        o.walletHeight v.depositTxid = some h →
        h ≤ tH → ¬ (tH - h + 1 < mc) →
        o.unvaultTxid v.id = some ut →
        o.walletHeight ut = some uh →
        v.spendTxid = some s →
        o.walletHeight s = none →
        rescanVaultStep mc tH o v =
          some (StepOutcome.acts [RescanAction.unconfirmSpend v.id])) ∧
    (∀ mc tH (o : RescanOracle) (v : DbVault) h ut uh,
        v.status = VaultStatus.canceled →
        o.walletHeight v.depositTxid = some h →
        h ≤ tH → ¬ (tH - h + 1 < mc) →
        o.unvaultTxid v.id = some ut →
        o.walletHeight ut = some uh →
        o.walletHeight (o.cancelTxid v.id) = none →
        rescanVaultStep mc tH o v =
          some (StepOutcome.acts [RescanAction.unconfirmCancel v.id])) ∧
    (∀ mc (tip : BlockchainTip) (o : RescanOracle) vaults res,
        comprehensive_rescan_pass mc tip o vaults = some (RescanOutcome.done res) →
        ∃ pre, res = pre ++ [RescanAction.writeTip tip]) := by
  refine ⟨?_, ?_, ?_, ?_, ?_, ?_, ?_⟩
  · intro mc tH o v hne hw
    simp [rescanVaultStep, hne, hw]
  · intro mc tip o v rest acc h hne hw hlt
    have hstep : rescanVaultStep mc tip.height o v = some StepOutcome.restart := by
      simp [rescanVaultStep, hne, hw, hlt]
    exact ⟨hstep, by simp [rescanVaults, hstep]⟩
  · intro mc tH o v h hne hw hle hconf
    simp [rescanVaultStep, hne, hw, not_lt.mpr hle, hconf]
  · intro mc tH o v h ut hmem hw hle hnc hu hwu
    have hne : v.status ≠ VaultStatus.unconfirmed := by
      intro he; rw [he] at hmem; revert hmem; decide
    simp [rescanVaultStep, hne, hw, not_lt.mpr hle, hnc, hmem, hu, hwu]
  · intro mc tH o v h ut uh s hs hw hle hnc hu hwu hvs hws
    have hmem : v.status ∈ pastUnvaultStatuses := by rw [hs]; decide
    have hne : v.status ≠ VaultStatus.unconfirmed := by rw [hs]; decide
    simp [rescanVaultStep, hne, hw, not_lt.mpr hle, hnc, hmem, hu, hwu, hs, hvs, hws,
      pastUnvaultStatuses]
  · intro mc tH o v h ut uh hs hw hle hnc hu hwu hwc
    have hmem : v.status ∈ pastUnvaultStatuses := by rw [hs]; decide
    have hne : v.status ≠ VaultStatus.unconfirmed := by rw [hs]; decide
    simp [rescanVaultStep, hne, hw, not_lt.mpr hle, hnc, hmem, hu, hwu, hs, hwc,
      pastUnvaultStatuses]
  · intro mc tip o vaults res h
    exact rescanVaults_done_writeTip mc tip o vaults.reverse [] res h

/-- Witness for C2: concrete instances of each clause of
`comprehensive_rescan_steps`. -/
theorem comprehensive_rescan_steps_witness :
    rescanVaultStep 6 100 c2Oracle ⟨3, 99, VaultStatus.funded, none⟩ =
      some (StepOutcome.acts [RescanAction.unconfirmVault 3]) ∧
    rescanVaults 6 ⟨5, 0⟩ c2Oracle [c2SpentVault] [] = some RescanOutcome.restart ∧
    rescanVaultStep 95 100 c2Oracle ⟨3, 11, VaultStatus.funded, none⟩ =
      some (StepOutcome.acts [RescanAction.unconfirmVault 3]) ∧
    rescanVaultStep 6 100 c2Oracle c2SpentVault =
      some (StepOutcome.acts [RescanAction.unconfirmUnvault 1]) ∧
    rescanVaultStep 6 100 c2OracleUnvaultConf c2SpentVault =
      some (StepOutcome.acts [RescanAction.unconfirmSpend 1]) ∧
    rescanVaultStep 6 100 c2OracleUnvaultConf c2CanceledVault =
      some (StepOutcome.acts [RescanAction.unconfirmCancel 2]) ∧
    (∃ pre, [RescanAction.writeTip (⟨100, 7⟩ : BlockchainTip)] =
      pre ++ [RescanAction.writeTip (⟨100, 7⟩ : BlockchainTip)]) := by
  refine ⟨?_, ?_, ?_, ?_, ?_, ?_, ?_⟩
  · exact comprehensive_rescan_steps.1 6 100 c2Oracle ⟨3, 99, VaultStatus.funded, none⟩
      (by decide) (by decide)
  · exact (comprehensive_rescan_steps.2.1 6 ⟨5, 0⟩ c2Oracle c2SpentVault [] [] 10
      (by decide) (by decide) (by decide)).2
  · exact comprehensive_rescan_steps.2.2.1 95 100 c2Oracle ⟨3, 11, VaultStatus.funded, none⟩ 10
      (by decide) (by decide) (by decide) (by decide)
  · exact comprehensive_rescan_steps.2.2.2.1 6 100 c2Oracle c2SpentVault 10 21
      (by decide) (by decide) (by decide) (by decide) (by decide) (by decide)
  · exact comprehensive_rescan_steps.2.2.2.2.1 6 100 c2OracleUnvaultConf c2SpentVault 10 21 12 41
      rfl (by decide) (by decide) (by decide) (by decide) (by decide) rfl (by decide)
  · exact comprehensive_rescan_steps.2.2.2.2.2.1 6 100 c2OracleUnvaultConf c2CanceledVault 10 21 12
      rfl (by decide) (by decide) (by decide) (by decide) (by decide) (by decide)
  · exact comprehensive_rescan_steps.2.2.2.2.2.2 6 ⟨100, 7⟩ c2Oracle []
      [RescanAction.writeTip ⟨100, 7⟩] rfl

/-- Counterexample to claim C3 as stated: when the wallet knows the expected
Cancel txid but it has neither a block height nor a mempool entry, the claim
(clause "otherwise it asks `get_spender_txid` ... and returns Spend") yields
Spend, but the source returns early with `Ok(None)` (actions.rs lines
1113-1120) without ever calling `get_spender_txid`. -/
theorem unvault_spender_claim_counterexample :
    unvault_spender c3CexOracle 3 = Except.ok none ∧
    unvault_spender_claimed c3CexOracle 3 = some (UnvaultSpender.spend 7) ∧
    (none : Option UnvaultSpender) ≠ some (UnvaultSpender.spend 7) := by
  refine ⟨rfl, rfl, by decide⟩

/-- Claim C3 (amended): the spender classifier returns Cancel when the
wallet knows the expected Cancel txid and that tx has a block height or is
in the mempool; when the wallet knows the Cancel txid but it has neither,
the spender is unknown this tick without consulting `get_spender_txid`;
only when the wallet does not know the Cancel txid does it ask
`get_spender_txid` bounded by the previous tip, returning Spend when a txid
is returned that the wallet knows and that has a block height or is in the
mempool; otherwise the spender is unknown this tick (a returned spender
txid unknown to the wallet propagates an error). -/
theorem unvault_spender_classification :
    (∀ (o : SpenderOracle) ct bh,
        o.walletTx ct = some bh →
        (bh.isSome || o.inMempool ct) = true →
        unvault_spender o ct = Except.ok (some (UnvaultSpender.cancel ct))) ∧
    (∀ (o : SpenderOracle) ct,
        o.walletTx ct = some none →
        o.inMempool ct = false →
        unvault_spender o ct = Except.ok none) ∧
    (∀ (o : SpenderOracle) ct st bh,
        o.walletTx ct = none →
        o.spenderTxid = some st →
        o.walletTx st = some bh →
        (bh.isSome || o.inMempool st) = true →
        unvault_spender o ct = Except.ok (some (UnvaultSpender.spend st))) ∧
    (∀ (o : SpenderOracle) ct st,
        o.walletTx ct = none →
        o.spenderTxid = some st →
        o.walletTx st = some none →
        o.inMempool st = false →
        unvault_spender o ct = Except.ok none) ∧
    (∀ (o : SpenderOracle) ct,
        o.walletTx ct = none →
        o.spenderTxid = none →
        unvault_spender o ct = Except.ok none) ∧
    (∀ (o : SpenderOracle) ct st,
        o.walletTx ct = none →
        o.spenderTxid = some st →
        o.walletTx st = none →
        unvault_spender o ct = Except.error ()) := by
  refine ⟨?_, ?_, ?_, ?_, ?_, ?_⟩
  · intro o ct bh hw hc
    simp [unvault_spender, hw, hc]
  · intro o ct hw hm
    simp [unvault_spender, hw, hm]
  · intro o ct st bh hw hs hws hc
    simp [unvault_spender, hw, hs, hws, hc]
  · intro o ct st hw hs hws hm
    simp [unvault_spender, hw, hs, hws, hm]
  · intro o ct hw hs
    simp [unvault_spender, hw, hs]
  · intro o ct st hw hs hws
    simp [unvault_spender, hw, hs, hws]

/-- Witness for C3 (amended): concrete instances of the Cancel clause, the
known-but-evicted-Cancel clause and the Spend clause. -/
theorem unvault_spender_classification_witness :
    unvault_spender c3CancelOracle 3 = Except.ok (some (UnvaultSpender.cancel 3)) ∧
    unvault_spender c3CexOracle 3 = Except.ok none ∧
    unvault_spender c3SpendOracle 3 = Except.ok (some (UnvaultSpender.spend 7)) := by
  refine ⟨?_, ?_, ?_⟩
  · exact unvault_spender_classification.1 c3CancelOracle 3 none rfl (by decide)
  · exact unvault_spender_classification.2.1 c3CexOracle 3 rfl (by decide)
  · exact unvault_spender_classification.2.2.1 c3SpendOracle 3 7 (some 50)
      (by decide) rfl rfl (by decide)

/-- Counterexample to claim C4 as stated: `unconfirm_unvault` *is* invoked
during a reorg rewind for a vault in status UnvaultEmergencyVaulting (first
conjunct: the rescan's second layer emits the call), yet none of its match
arms fires for that status, so the unvaults cache is left without any entry
for the vault's unvault outpoint (second conjunct), contradicting the
claimed postcondition that an entry with `is_confirmed = false` exists. -/
theorem unconfirm_unvault_cache_counterexample :
    rescanVaultStep 1 100 c2Oracle c4UevVault =
      some (StepOutcome.acts [RescanAction.unconfirmUnvault 4]) ∧
    (unconfirm_unvault_cache VaultStatus.unvaultEmergencyVaulting (some 31) op0 txo0
        emptyUnvaultsCache).map (fun c => c op0) = some none := by
  refine ⟨rfl, rfl⟩

/-- Claim C4 (amended): during a reorg rewind, `unconfirm_unvault`
re-inserts the unvault cache entry with `is_confirmed = false` for a vault
previously in status Spending or Spent; for Canceling or Canceled it does
so when the database holds a Cancel row for the vault, and returns early
leaving the cache untouched when it does not; for a vault previously in
status Unvaulted it only flips the confirmation flag of the existing entry
(preserving the entry's txo, panicking if absent); for the statuses
Unvaulting, UnvaultEmergencyVaulting and UnvaultEmergencyVaulted the cache
is left untouched, so the claimed postcondition holds there only when an
unconfirmed entry was already present. -/
theorem unconfirm_unvault_cache_effect :
    (∀ (status : VaultStatus) (cr : Option Nat) (op : OutPointM) (txo : TxOutModel)
        (c : UnvaultsCache),
        (status = VaultStatus.spending ∨ status = VaultStatus.spent) →
        unconfirm_unvault_cache status cr op txo c =
            some (cacheInsert c op ⟨txo, false⟩) ∧
          cacheInsert c op ⟨txo, false⟩ op = some ⟨txo, false⟩) ∧
    (∀ (status : VaultStatus) (ct : Nat) (op : OutPointM) (txo : TxOutModel)
        (c : UnvaultsCache),
        (status = VaultStatus.canceling ∨ status = VaultStatus.canceled) →
        unconfirm_unvault_cache status (some ct) op txo c =
            some (cacheInsert c op ⟨txo, false⟩) ∧
          cacheInsert c op ⟨txo, false⟩ op = some ⟨txo, false⟩) ∧
    (∀ (status : VaultStatus) (op : OutPointM) (txo : TxOutModel) (c : UnvaultsCache),
        (status = VaultStatus.canceling ∨ status = VaultStatus.canceled) →
        unconfirm_unvault_cache status none op txo c = some c) ∧
    (∀ (cr : Option Nat) (op : OutPointM) (txo : TxOutModel) (c : UnvaultsCache)
        (u : UtxoInfo),
        c op = some u →
        unconfirm_unvault_cache VaultStatus.unvaulted cr op txo c =
            some (cacheInsert c op ⟨u.txo, false⟩) ∧
          cacheInsert c op ⟨u.txo, false⟩ op = some ⟨u.txo, false⟩ ∧
          ∀ o, o ≠ op → cacheInsert c op ⟨u.txo, false⟩ o = c o) ∧
    (∀ (cr : Option Nat) (op : OutPointM) (txo : TxOutModel) (c : UnvaultsCache),
        c op = none →
        unconfirm_unvault_cache VaultStatus.unvaulted cr op txo c = none) ∧
    (∀ (status : VaultStatus) (cr : Option Nat) (op : OutPointM) (txo : TxOutModel)
        (c : UnvaultsCache),
        (status = VaultStatus.unvaulting ∨
          status = VaultStatus.unvaultEmergencyVaulting ∨
          status = VaultStatus.unvaultEmergencyVaulted) →
        unconfirm_unvault_cache status cr op txo c = some c) := by
  refine ⟨?_, ?_, ?_, ?_, ?_, ?_⟩
  · intro status cr op txo c hst
    rcases hst with h | h <;>
      subst h <;> exact ⟨by simp [unconfirm_unvault_cache], by simp [cacheInsert]⟩
  · intro status ct op txo c hst
    rcases hst with h | h <;>
      subst h <;> exact ⟨by simp [unconfirm_unvault_cache], by simp [cacheInsert]⟩
  · intro status op txo c hst
    rcases hst with h | h <;> subst h <;> simp [unconfirm_unvault_cache]
  · intro cr op txo c u hc
    refine ⟨?_, by simp [cacheInsert], ?_⟩
    · simp [unconfirm_unvault_cache, hc]
    · intro o ho
      simp [cacheInsert, ho]
  · intro cr op txo c hc
    simp [unconfirm_unvault_cache, hc]
  · intro status cr op txo c hst
    rcases hst with h | h | h <;> subst h <;> simp [unconfirm_unvault_cache]

/-- Witness for C4 (amended): concrete instances of the Spent re-insert
clause, the Canceled re-insert clause (Cancel row present), the Canceled
early-return clause (no Cancel row), the Unvaulted flip clause (preserving
the stored txo, which differs from the recomputed one) and the untouched
clause. -/
theorem unconfirm_unvault_cache_effect_witness :
    unconfirm_unvault_cache VaultStatus.spent (some 31) op0 txo0 emptyUnvaultsCache =
      some (cacheInsert emptyUnvaultsCache op0 ⟨txo0, false⟩) ∧
    unconfirm_unvault_cache VaultStatus.canceled (some 31) op0 txo0 emptyUnvaultsCache =
      some (cacheInsert emptyUnvaultsCache op0 ⟨txo0, false⟩) ∧
    unconfirm_unvault_cache VaultStatus.canceled none op0 txo0 emptyUnvaultsCache =
      some emptyUnvaultsCache ∧
    unconfirm_unvault_cache VaultStatus.unvaulted (some 31) op0 txo0 c4Cache =
      some (cacheInsert c4Cache op0 ⟨⟨480000, 9⟩, false⟩) ∧
    unconfirm_unvault_cache VaultStatus.unvaulting (some 31) op0 txo0 c4Cache =
      some c4Cache := by
  refine ⟨?_, ?_, ?_, ?_, ?_⟩
  · exact (unconfirm_unvault_cache_effect.1 VaultStatus.spent (some 31) op0 txo0
      emptyUnvaultsCache (Or.inr rfl)).1
  · exact (unconfirm_unvault_cache_effect.2.1 VaultStatus.canceled 31 op0 txo0
      emptyUnvaultsCache (Or.inr rfl)).1
  · exact unconfirm_unvault_cache_effect.2.2.1 VaultStatus.canceled op0 txo0
      emptyUnvaultsCache (Or.inr rfl)
  · exact (unconfirm_unvault_cache_effect.2.2.2.1 (some 31) op0 txo0 c4Cache
      ⟨⟨480000, 9⟩, true⟩ (by simp [c4Cache])).1
  · exact unconfirm_unvault_cache_effect.2.2.2.2.2 VaultStatus.unvaulting (some 31) op0
      txo0 c4Cache (Or.inl rfl)

/-- Claim C5: for any `revocationtxs` or `unvaulttx` call in which a
submitted PSBT's unsigned-transaction wtxid differs from the wtxid of the
corresponding stored presigned transaction, the call returns an
invalid-params error (`badWtxid`) and the store state — vault status and
presigned signatures — is unchanged. -/
theorem psbt_wtxid_check (st st2 : VaultRow) (c e ue u : PresignedTx) (o : SigOracle) :
    (st.status = VaultStatus.funded →
      (c.wtxid ≠ st.cancelDb.wtxid ∨ e.wtxid ≠ st.emerDb.wtxid ∨
        ue.wtxid ≠ st.unvaultEmerDb.wtxid) →
      revocationtxs Role.stakeholder (some st) c e ue o =
        (Except.error RpcErr.badWtxid, some st)) ∧
    (st2.status = VaultStatus.secured →
      u.wtxid ≠ st2.unvaultDb.wtxid →
      unvaulttx Role.stakeholder (some st2) u o =
        (Except.error RpcErr.badWtxid, some st2)) := by
  constructor
  · intro hst hmis
    by_cases h1 : c.wtxid = st.cancelDb.wtxid
    · by_cases h2 : e.wtxid = st.emerDb.wtxid
      · have h3 : ue.wtxid ≠ st.unvaultEmerDb.wtxid := by tauto
        simp [revocationtxs, hst, h1, h2, h3]
      · simp [revocationtxs, hst, h1, h2]
    · simp [revocationtxs, hst, h1]
  · intro hst hmis
    simp [unvaulttx, hst, hmis]

/-- Witness for C5: a Cancel PSBT with wtxid 9 against stored wtxid 1 is
rejected without touching the row, and same for an Unvault PSBT. -/
theorem psbt_wtxid_check_witness :
    revocationtxs Role.stakeholder (some c5FundedRow) ⟨9, []⟩ ⟨2, []⟩ ⟨3, []⟩ c5Oracle =
      (Except.error RpcErr.badWtxid, some c5FundedRow) ∧
    unvaulttx Role.stakeholder (some c5SecuredRow) ⟨9, []⟩ c5Oracle =
      (Except.error RpcErr.badWtxid, some c5SecuredRow) := by
  constructor
  · exact (psbt_wtxid_check c5FundedRow c5SecuredRow ⟨9, []⟩ ⟨2, []⟩ ⟨3, []⟩ ⟨9, []⟩
      c5Oracle).1 rfl (Or.inl (by decide))
  · exact (psbt_wtxid_check c5FundedRow c5SecuredRow ⟨9, []⟩ ⟨2, []⟩ ⟨3, []⟩ ⟨9, []⟩
      c5Oracle).2 rfl (by decide)

/-- Claim C9: in `revocationtxs` the merged partial signatures are
committed to the store before they are shared with the other stakeholders;
hence when sharing fails, the call replies with an error while the merged
signatures — and any threshold-triggered status promotion performed by the
update — remain persisted: the store is mutated despite the error reply. -/
theorem revocationtxs_persists_before_share (st : VaultRow) (c e ue : PresignedTx)
    (o : SigOracle)
    (hst : st.status = VaultStatus.funded)
    (hwc : c.wtxid = st.cancelDb.wtxid)
    (hwe : e.wtxid = st.emerDb.wtxid)
    (hwue : ue.wtxid = st.unvaultEmerDb.wtxid)
    (hkc : hasKey c.sigs o.ourKey = true)
    (hke : hasKey e.sigs o.ourKey = true)
    (hkue : hasKey ue.sigs o.ourKey = true)
    (hv1 : o.revSigsValid c.wtxid c.sigs = true)
    (hv2 : o.revSigsValid e.wtxid e.sigs = true)
    (hv3 : o.revSigsValid ue.wtxid ue.sigs = true)
    (hshare : o.shareOk = false) :
    revocationtxs Role.stakeholder (some st) c e ue o =
      (Except.error RpcErr.shareFailed,
        some (promoteRevThreshold o (mergedRevState st c e ue))) ∧
    (promoteRevThreshold o (mergedRevState st c e ue)).cancelDb.sigs =
      mergeSigs st.cancelDb.sigs c.sigs ∧
    (promoteRevThreshold o (mergedRevState st c e ue)).emerDb.sigs =
      mergeSigs st.emerDb.sigs e.sigs ∧
    (promoteRevThreshold o (mergedRevState st c e ue)).unvaultEmerDb.sigs =
      mergeSigs st.unvaultEmerDb.sigs ue.sigs := by
  rw [hwc] at hv1
  rw [hwe] at hv2
  rw [hwue] at hv3
  refine ⟨?_, ?_, ?_, ?_⟩
  · simp [revocationtxs, hst, hwc, hwe, hwue, hkc, hke, hkue, hv1, hv2, hv3, hshare]
  · unfold promoteRevThreshold
    split <;> simp [mergedRevState]
  · unfold promoteRevThreshold
    split <;> simp [mergedRevState]
  · unfold promoteRevThreshold
    split <;> simp [mergedRevState]

/-- Witness for C9: valid signatures for stored wtxids 1, 2, 3 are merged
and kept although sharing fails and the call replies with an error. -/
theorem revocationtxs_persists_before_share_witness :
    revocationtxs Role.stakeholder (some c5FundedRow)
        ⟨1, [(100, 901)]⟩ ⟨2, [(100, 902)]⟩ ⟨3, [(100, 903)]⟩ c9Oracle =
      (Except.error RpcErr.shareFailed,
        some (promoteRevThreshold c9Oracle
          (mergedRevState c5FundedRow ⟨1, [(100, 901)]⟩ ⟨2, [(100, 902)]⟩
            ⟨3, [(100, 903)]⟩))) ∧
    (promoteRevThreshold c9Oracle
        (mergedRevState c5FundedRow ⟨1, [(100, 901)]⟩ ⟨2, [(100, 902)]⟩
          ⟨3, [(100, 903)]⟩)).cancelDb.sigs = [(100, 901)] := by
  constructor
  · exact (revocationtxs_persists_before_share c5FundedRow
      ⟨1, [(100, 901)]⟩ ⟨2, [(100, 902)]⟩ ⟨3, [(100, 903)]⟩ c9Oracle
      rfl rfl rfl rfl (by decide) (by decide) (by decide) rfl rfl rfl rfl).1
  · have h := (revocationtxs_persists_before_share c5FundedRow
      ⟨1, [(100, 901)]⟩ ⟨2, [(100, 902)]⟩ ⟨3, [(100, 903)]⟩ c9Oracle
      rfl rfl rfl rfl (by decide) (by decide) (by decide) rfl rfl rfl rfl).2.1
    simpa [c5FundedRow, mergeSigs] using h

/-- One new-deposit step never decreases `current_unused_index`. -/
theorem processNewDeposit_mono (dimap : Nat → Option Nat) (cur : Nat)
    (d : NewDepositUtxo) (next : Nat) (acts : List DepositAction)
    (h : processNewDeposit dimap cur d = some (next, acts)) : cur ≤ next := by
  by_cases hd : d.value ≤ DUST_LIMIT
  · simp [processNewDeposit, hd] at h
    omega
  · cases hm : dimap d.scriptPubkey with
    | none => simp [processNewDeposit, hd, hm] at h
    | some idx =>
      by_cases hle : cur ≤ idx
      · by_cases hinc : cur + 1 < 2147483648
        · simp [processNewDeposit, hd, hm, hle, childIncrement, hinc] at h
          omega
        · simp [processNewDeposit, hd, hm, hle, childIncrement, hinc] at h
      · simp [processNewDeposit, hd, hm, hle] at h
        omega

/-- Claim C6: the stored next-unused derivation index never decreases
across a run, and it is advanced (incremented by one, with fresh deposit
and unvault descriptors imported into the node wallet) exactly when a new
unconfirmed non-dust deposit is observed whose assigned derivation index
is greater than or equal to the current first-unused index. -/
theorem derivation_index_monotone_advance (dimap : Nat → Option Nat) :
    (∀ (ds : List NewDepositUtxo) (cur fin : Nat),
        processNewDeposits dimap cur ds = some fin → cur ≤ fin) ∧
    (∀ (d : NewDepositUtxo) (cur idx : Nat),
        DUST_LIMIT < d.value →
        dimap d.scriptPubkey = some idx →
        cur ≤ idx → cur + 1 < 2 ^ 31 →
        processNewDeposit dimap cur d =
          some (cur + 1,
            [DepositAction.insertVault d.outpoint d.value idx,
             DepositAction.cachePut d.outpoint,
             DepositAction.dbUpdateDepositIndex (cur + 1),
             DepositAction.importDepositDescriptor (cur + 1),
             DepositAction.importUnvaultDescriptor (cur + 1)])) ∧
    (∀ (d : NewDepositUtxo) (cur idx : Nat),
        DUST_LIMIT < d.value →
        dimap d.scriptPubkey = some idx →
        idx < cur →
        processNewDeposit dimap cur d =
          some (cur,
            [DepositAction.insertVault d.outpoint d.value idx,
             DepositAction.cachePut d.outpoint])) ∧
    (∀ (d : NewDepositUtxo) (cur : Nat),
        d.value ≤ DUST_LIMIT →
        processNewDeposit dimap cur d = some (cur, [])) := by
  refine ⟨?_, ?_, ?_, ?_⟩
  · intro ds
    induction ds with
    | nil =>
      intro cur fin h
      simp [processNewDeposits] at h
      omega
    | cons d rest ih =>
      intro cur fin h
      simp only [processNewDeposits] at h
      cases hstep : processNewDeposit dimap cur d with
      | none => rw [hstep] at h; exact absurd h (by simp)
      | some p =>
        rw [hstep] at h
        exact le_trans (processNewDeposit_mono dimap cur d p.1 p.2 hstep) (ih p.1 fin h)
  · intro d cur idx hdust hm hle hinc
    have hinc2 : cur + 1 < 2147483648 := by omega
    simp [processNewDeposit, Nat.not_le.mpr hdust, hm, hle, childIncrement, hinc2]
  · intro d cur idx hdust hm hlt
    simp [processNewDeposit, Nat.not_le.mpr hdust, hm, Nat.not_le.mpr hlt]
  · intro d cur hdust
    simp [processNewDeposit, hdust]

/-- Witness for C6: with `dimapWitness`, a 0.003 BTC deposit at script 55
(index 5) advances the index from 5 to 6 with the descriptor imports, does
not advance it from index 9, and a run over that deposit list is
monotone. -/
theorem derivation_index_monotone_advance_witness :
    processNewDeposit dimapWitness 5 ⟨⟨7, 0⟩, 300000, 55⟩ =
      some (6, [DepositAction.insertVault ⟨7, 0⟩ 300000 5,
                DepositAction.cachePut ⟨7, 0⟩,
                DepositAction.dbUpdateDepositIndex 6,
                DepositAction.importDepositDescriptor 6,
                DepositAction.importUnvaultDescriptor 6]) ∧
    processNewDeposit dimapWitness 9 ⟨⟨7, 0⟩, 300000, 55⟩ =
      some (9, [DepositAction.insertVault ⟨7, 0⟩ 300000 5,
                DepositAction.cachePut ⟨7, 0⟩]) ∧
    5 ≤ 6 := by
  refine ⟨?_, ?_, ?_⟩
  · exact (derivation_index_monotone_advance dimapWitness).2.1 ⟨⟨7, 0⟩, 300000, 55⟩ 5 5
      (by decide) (by decide) (by decide) (by decide)
  · exact (derivation_index_monotone_advance dimapWitness).2.2.1 ⟨⟨7, 0⟩, 300000, 55⟩ 9 5
      (by decide) (by decide) (by decide)
  · exact (derivation_index_monotone_advance dimapWitness).1 [⟨⟨7, 0⟩, 300000, 55⟩] 5 6
      (by decide)

/-- Claim C7: a newly observed unconfirmed deposit UTXO whose value is at
most `DUST_LIMIT` inserts no vault row in the store and creates no
deposit-cache entry; the deposit is only logged and ignored, and the index
is untouched. -/
theorem dust_deposit_ignored (dimap : Nat → Option Nat) (cur : Nat)
    (d : NewDepositUtxo) (hdust : d.value ≤ DUST_LIMIT) :
    processNewDeposit dimap cur d = some (cur, []) := by
  simp [processNewDeposit, hdust]

/-- Witness for C7: a deposit of exactly `DUST_LIMIT` satoshis is ignored. -/
theorem dust_deposit_ignored_witness :
    processNewDeposit dimapWitness 5 ⟨⟨8, 0⟩, 200000, 55⟩ = some (5, []) :=
  dust_deposit_ignored dimapWitness 5 ⟨⟨8, 0⟩, 200000, 55⟩ (by decide)

/-- The change-index fold never goes below its accumulator. -/
theorem maxDerivationIndex_acc_le :
    ∀ (rows : List (Option VaultInfo)) (acc : Nat), acc ≤ maxDerivationIndex rows acc := by
  intro rows
  induction rows with
  | nil => intro acc; exact le_refl acc
  | cons r rest ih =>
    intro acc
    cases r with
    | none => exact ih acc
    | some v =>
      refine le_trans ?_ (ih (if acc < v.derivationIndex then v.derivationIndex else acc))
      split <;> omega

/-- Every looked-up vault's derivation index is bounded by the fold. -/
theorem mem_le_maxDerivationIndex :
    ∀ (rows : List (Option VaultInfo)) (acc : Nat) (v : VaultInfo),
      some v ∈ rows → v.derivationIndex ≤ maxDerivationIndex rows acc := by
  intro rows
  induction rows with
  | nil => intro acc v h; exact absurd h (by simp)
  | cons r rest ih =>
    intro acc v h
    rcases List.mem_cons.mp h with heq | hmem
    · rw [← heq]
      refine le_trans ?_
        (maxDerivationIndex_acc_le rest (if acc < v.derivationIndex then v.derivationIndex else acc))
      split <;> omega
    · cases r with
      | none => exact ih acc v hmem
      | some w => exact ih (if acc < w.derivationIndex then w.derivationIndex else acc) v hmem

/-- A successful vault collection computes exactly the running maximum of
the derivation indexes as its change index. -/
theorem collectSpendTxins_change_index :
    ∀ (rows : List (Option VaultInfo)) (acc : Nat) (txins : List (Nat × Nat)) (fin : Nat),
      collectSpendTxins rows acc = Except.ok (txins, fin) →
      fin = maxDerivationIndex rows acc := by
  intro rows
  induction rows with
  | nil =>
    intro acc txins fin h
    simp only [collectSpendTxins, Except.ok.injEq, Prod.mk.injEq] at h
    exact h.2.symm
  | cons r rest ih =>
    intro acc txins fin h
    cases r with
    | none => exact absurd h (by simp [collectSpendTxins])
    | some v =>
      simp only [collectSpendTxins] at h
      by_cases hs : v.status = VaultStatus.active
      · rw [if_pos hs] at h
        cases hcol : collectSpendTxins rest
            (if acc < v.derivationIndex then v.derivationIndex else acc) with
        | error e => rw [hcol] at h; exact absurd h (by simp)
        | ok p =>
          rw [hcol] at h
          simp only [Except.ok.injEq, Prod.mk.injEq] at h
          have := ih (if acc < v.derivationIndex then v.derivationIndex else acc) p.1 p.2
            (by rw [hcol])
          simp only [maxDerivationIndex, List.foldl_cons]
          rw [← h.2]
          exact this
      · rw [if_neg hs] at h
        exact absurd h (by simp)

/-- Claim C8: `getspendtx` rejects with an invalid-params error any request
with `feerate_vb < 1`, and any request for which the no-change
transaction's actual feerate times 10 is strictly less than the requested
feerate times 9; when the computed change value exceeds
`DUST_LIMIT + cpfp_overhead` it adds a change output of that value minus
`cpfp_overhead`, derived at the highest derivation index among the spent
vaults. -/
theorem getspendtx_checks :
    (∀ (rows : List (Option VaultInfo)) mf mw fees,
        getspendtx Role.manager rows 0 mf mw fees = Except.error RpcErr.badFeerate) ∧
    (∀ (rows : List (Option VaultInfo)) feerate mf mw fees txins ci,
        1 ≤ feerate →
        collectSpendTxins rows 0 = Except.ok (txins, ci) →
        mf * 4 * 10 < feerate * 9 →
        getspendtx Role.manager rows feerate mf mw fees = Except.error RpcErr.feerateTooLow) ∧
    (∀ (rows : List (Option VaultInfo)) feerate mf mw fees txins ci wf,
        1 ≤ feerate →
        collectSpendTxins rows 0 = Except.ok (txins, ci) →
        ¬ (mf * 4 * 10 < feerate * 9) →
        (mw + P2WSH_TXO_WEIGHT) * (feerate + 3) < 2 ^ 64 →
        wf = (mw + P2WSH_TXO_WEIGHT) * (feerate + 3) / 4 →
        wf ≤ fees →
        DUST_LIMIT + 16 * P2WSH_TXO_WEIGHT < fees - wf →
        getspendtx Role.manager rows feerate mf mw fees =
          Except.ok { txins := txins,
                      changeOutput := some (fees - wf - 16 * P2WSH_TXO_WEIGHT,
                                            maxDerivationIndex rows 0) } ∧
          (∀ v : VaultInfo, some v ∈ rows →
            v.derivationIndex ≤ maxDerivationIndex rows 0)) := by
  refine ⟨?_, ?_, ?_⟩
  · intro rows mf mw fees
    simp [getspendtx]
  · intro rows feerate mf mw fees txins ci hfr hcol hlow
    simp [getspendtx, Nat.not_lt.mpr hfr, hcol, hlow]
  · intro rows feerate mf mw fees txins ci wf hfr hcol hhigh hbound hwf hsub hcv
    subst hwf
    have hci := collectSpendTxins_change_index rows 0 txins ci hcol
    constructor
    · rw [← hci]
      have hbound2 : (mw + P2WSH_TXO_WEIGHT) * (feerate + 3) < 18446744073709551616 := by
        simpa using hbound
      simp [getspendtx, Nat.not_lt.mpr hfr, hcol, hhigh, hbound2, hsub, hcv]
    · intro v hv
      exact mem_le_maxDerivationIndex rows 0 v hv

/-- Witness for C8: with two Active vaults at indexes 3 and 7, a feerate-0
request is rejected, an underpaying no-change transaction is rejected, and
a fee surplus of 299285 sat yields a change output of 296533 sat at
index 7. -/
theorem getspendtx_checks_witness :
    getspendtx Role.manager c8Rows 0 1 400 300000 = Except.error RpcErr.badFeerate ∧
    getspendtx Role.manager c8Rows 2 0 400 300000 = Except.error RpcErr.feerateTooLow ∧
    getspendtx Role.manager c8Rows 2 1 400 300000 =
      Except.ok { txins := [(500000, 3), (600000, 7)],
                  changeOutput := some (296533, 7) } := by
  refine ⟨?_, ?_, ?_⟩
  · exact getspendtx_checks.1 c8Rows 1 400 300000
  · exact getspendtx_checks.2.1 c8Rows 2 0 400 300000 [(500000, 3), (600000, 7)] 7
      (by decide) rfl (by decide)
  · exact (getspendtx_checks.2.2 c8Rows 2 1 400 300000 [(500000, 3), (600000, 7)] 7 715
      (by decide) rfl (by decide) (by decide) (by decide) (by decide) (by decide)).1

/-- Claim C10: for a stakeholder caller, `getrevocationtxs` and
`getunvaulttx` reject a request exactly when no vault exists at the given
deposit outpoint or the vault's status is Unconfirmed; for a vault in any
other status — including statuses past Funded/Secured such as Active or
Spent — they succeed and return the freshly re-derived transactions. -/
theorem get_presigned_txs_gating :
    (∀ (op : OutPointM),
        getrevocationtxs Role.stakeholder op none = Except.error RpcErr.unknownOutpoint) ∧
    (∀ (op : OutPointM) (v : VaultInfo), v.status = VaultStatus.unconfirmed →
        getrevocationtxs Role.stakeholder op (some v) =
          Except.error RpcErr.unknownOutpoint) ∧
    (∀ (op : OutPointM) (v : VaultInfo), v.status ≠ VaultStatus.unconfirmed →
        getrevocationtxs Role.stakeholder op (some v) =
          Except.ok ⟨op, v.amount, v.derivationIndex⟩) ∧
    (∀ (op : OutPointM),
        getunvaulttx Role.stakeholder op none = Except.error RpcErr.unknownOutpoint) ∧
    (∀ (op : OutPointM) (v : VaultInfo), v.status = VaultStatus.unconfirmed →
        getunvaulttx Role.stakeholder op (some v) = Except.error RpcErr.invalidStatus) ∧
    (∀ (op : OutPointM) (v : VaultInfo), v.status ≠ VaultStatus.unconfirmed →
        getunvaulttx Role.stakeholder op (some v) =
          Except.ok ⟨op, v.amount, v.derivationIndex⟩) := by
  refine ⟨?_, ?_, ?_, ?_, ?_, ?_⟩
  · intro op; simp [getrevocationtxs]
  · intro op v h; simp [getrevocationtxs, h]
  · intro op v h; simp [getrevocationtxs, h]
  · intro op; simp [getunvaulttx]
  · intro op v h; simp [getunvaulttx, h]
  · intro op v h; simp [getunvaulttx, h]

/-- Witness for C10: an Unconfirmed vault is rejected while a Spent vault
still gets its transactions re-derived. -/
theorem get_presigned_txs_gating_witness :
    getrevocationtxs Role.stakeholder ⟨6, 1⟩
        (some ⟨VaultStatus.unconfirmed, 700000, 2⟩) =
      Except.error RpcErr.unknownOutpoint ∧
    getrevocationtxs Role.stakeholder ⟨6, 1⟩ (some ⟨VaultStatus.spent, 700000, 2⟩) =
      Except.ok ⟨⟨6, 1⟩, 700000, 2⟩ ∧
    getunvaulttx Role.stakeholder ⟨6, 1⟩ (some ⟨VaultStatus.active, 700000, 2⟩) =
      Except.ok ⟨⟨6, 1⟩, 700000, 2⟩ := by
  refine ⟨?_, ?_, ?_⟩
  · exact get_presigned_txs_gating.2.1 ⟨6, 1⟩ ⟨VaultStatus.unconfirmed, 700000, 2⟩ rfl
  · exact get_presigned_txs_gating.2.2.1 ⟨6, 1⟩ ⟨VaultStatus.spent, 700000, 2⟩ (by decide)
  · exact get_presigned_txs_gating.2.2.2.2.2 ⟨6, 1⟩ ⟨VaultStatus.active, 700000, 2⟩ (by decide)

end Revaultd
